import Mathlib

/-!
Verification of the container lifecycle core (`lib/portlayer/exec/base.go`):
the state snapshot (`containerBase`), atomic refresh, and the lifecycle
operations `start`, `stop`, `kill`, `shutdown`, `poweroff`,
`waitForPowerState`.

The infrastructure layer (vSphere client, guest agent, task engine) is
modelled as a behaviour record `VMBehavior` attached to a live instance
handle: each field gives the outcome of the corresponding infrastructure
call, indexed by call number where the same call may be made repeatedly.
Every operation returns its Go result together with a trace of the
infrastructure calls it issued, so that claims about "no further call is
made" are statements about the trace.
-/

namespace Exec

/-- VM power state (`types.VirtualMachinePowerState`). -/
inductive PowerState where
  | poweredOn
  | poweredOff
  | suspended
deriving DecidableEq, Repr

/-- `ssh.SIGKILL` from `golang.org/x/crypto/ssh`: the string "KILL". -/
def SIGKILL : String := "KILL"

/-- `ssh.SIGTERM` from `golang.org/x/crypto/ssh`: the string "TERM". -/
def SIGTERM : String := "TERM"

/-- `types.LocalizableMessage`: only the `Key` field is inspected by the code. -/
structure LocalizableMessage where
  key : String
deriving DecidableEq, Repr

/-- Structured fault carried by a failed infrastructure task
(`task.Error.Fault()`), covering the shapes `poweroff` inspects. -/
inductive Fault where
  | invalidPowerState (existingState : PowerState)
  | genericVmConfigFault (faultMessage : List LocalizableMessage)
  | otherFault
deriving DecidableEq, Repr

/-- Go `error` values produced in this file: the `NotYetExistError` type,
task errors with a structured fault, and plain string errors
(`errors.New` / `fmt.Errorf`). -/
inductive GoError where
  | notYetExist (id : String)
  | taskError (fault : Fault) (msg : String)
  | plain (msg : String)
deriving DecidableEq, Repr

/-- `err.Error()`: the error text. For `NotYetExistError` this is
`fmt.Sprintf("%s is not completely created", e.ID)`. -/
def GoError.message : GoError → String
  | .notYetExist id => id ++ " is not completely created"
  | .taskError _ m => m
  | .plain m => m

/-- Outcome of the underlying `vm.WaitForPowerState(timeout, state)` call:
either it returned nil, or it returned an error, in which case
`deadlineExceeded` records whether `timeout.Err() != nil` held on return. -/
inductive WaitOutcome where
  | ok
  | err (e : GoError) (deadlineExceeded : Bool)
deriving DecidableEq, Repr

/-- `types.VirtualMachineConfigInfo`: only the extra-config key/value blob
is consumed by this core. -/
structure ConfigInfo where
  extraConfig : List (String × String)
deriving DecidableEq, Repr

/-- `types.VirtualMachineRuntimeInfo`: dynamic state, primarily power state. -/
structure RuntimeInfo where
  powerState : PowerState
deriving DecidableEq, Repr

/-- `mo.VirtualMachine` as populated by a successful
`Properties(ctx, ref, ["config", "runtime"], &o)` fetch. -/
structure MoVM where
  config : ConfigInfo
  runtime : RuntimeInfo

/-- Session record of the decoded executor configuration
(`executor.SessionConfig`): the configured stop signal is the only field
this core reads. -/
structure SessionConfig where
  stopSignal : String
deriving DecidableEq, Repr

/-- Modelled from the spec: `executor.ExecutorConfig` (package
`lib/config/executor`, not part of the core source) is "decoded typed
configuration containing an identifier and a mapping from session-id to
Session records". The mapping is an association list; lookup is
Option-returning. -/
structure ExecutorConfig where
  id : String
  sessions : List (String × SessionConfig)
deriving DecidableEq, Repr

/-- Lookup `ec.Sessions[ec.ID]` as an Option-returning map access. -/
def ExecutorConfig.sessionForID (ec : ExecutorConfig) : Option SessionConfig :=
  (ec.sessions.find? (fun p => p.1 == ec.id)).map (fun p => p.2)

/-- One infrastructure call issued by an operation, for the trace. -/
inductive Event where
  | properties
  | powerOnTask
  | powerOffTask
  | guestProgram (name : String) (args : String)
  | waitPowerState (maxSeconds : Int) (target : PowerState)
  | waitKey (key : String)
deriving DecidableEq, Repr

/-- Behaviour of the infrastructure as seen through one live instance
handle. Calls that may be made several times in one operation are indexed
by call number. -/
structure VMBehavior where
  /-- outcome of `Properties(ctx, ref, ["config","runtime"], &o)` -/
  propertiesResult : Except GoError MoVM
  /-- outcome of `WaitForResult` around `PowerOn` -/
  powerOnResult : Option GoError
  /-- outcome of `WaitForResult` around `PowerOff` -/
  powerOffResult : Option GoError
  /-- outcome of the nth `StartProgram` dispatch (guest program, argument) -/
  startProgram : Nat → String → String → Option GoError
  /-- outcome of the nth underlying `WaitForPowerState` call -/
  waitPower : Nat → WaitOutcome
  /-- outcome of `WaitForKeyInExtraConfig` for a given key -/
  waitForKey : String → Except GoError String

/-- `containerBase`: the snapshot tuple {ExecConfig, Config, Runtime, vm}.
`vm = none` models a nil instance handle ("not yet materialized"). -/
structure containerBase where
  ExecConfig : ExecutorConfig
  Config : Option ConfigInfo
  Runtime : Option RuntimeInfo
  vm : Option VMBehavior

/-- Dispatch of a guest program through a live handle: the
`ProcessManager`/`StartProgram` round trip, recorded in the trace. -/
def VMBehavior.startProgramCall (v : VMBehavior) (idx : Nat) (name args : String) :
    Option GoError × List Event :=
  (v.startProgram idx name args, [Event.guestProgram name args])

/-- `startGuestProgram`: nil-handle check, then dispatch. -/
def containerBase.startGuestProgram (c : containerBase) (idx : Nat) (name args : String) :
    Option GoError × List Event :=
  match c.vm with
  | none => (some (GoError.notYetExist c.ExecConfig.id), [])
  | some v => v.startProgramCall idx name args

/-- `waitForPowerState` body on a live handle: runs the underlying wait and
returns `(timeout.Err() != nil, err)` on failure, `(false, nil)` on
success. -/
def VMBehavior.waitForPowerState (v : VMBehavior) (idx : Nat) (max : Int) (state : PowerState) :
    (Bool × Option GoError) × List Event :=
  match v.waitPower idx with
  | WaitOutcome.ok => ((false, none), [Event.waitPowerState max state])
  | WaitOutcome.err e dl => ((dl, some e), [Event.waitPowerState max state])

/-- `updates`: nil-handle check, single property fetch, then a brand-new
snapshot assembled from that one fetch, with `ExecConfig` decoded (by the
metadata codec `decode`) from the fetched config's extra-config blob. -/
def containerBase.updates (decode : List (String × String) → ExecutorConfig)
    (c : containerBase) : Except GoError containerBase × List Event :=
  match c.vm with
  | none => (Except.error (GoError.notYetExist c.ExecConfig.id), [])
  | some v =>
    match v.propertiesResult with
    | Except.error e => (Except.error e, [Event.properties])
    | Except.ok o =>
      (Except.ok { ExecConfig := decode o.config.extraConfig,
                   Config := some o.config,
                   Runtime := some o.runtime,
                   vm := c.vm }, [Event.properties])

/-- `refresh`: on success the held snapshot is replaced wholesale by the
result of `updates` (`*c = *base`); on error it is left unchanged and the
error returned. -/
def containerBase.refresh (decode : List (String × String) → ExecutorConfig)
    (c : containerBase) : (containerBase × Option GoError) × List Event :=
  match c.updates decode with
  | (Except.error e, evs) => ((c, some e), evs)
  | (Except.ok base, evs) => ((base, none), evs)

/-- Modelled from the spec: `extraconfig.CalculateKeys` (package
`pkg/vsphere/extraconfig`, not part of the core source) computes the
guestinfo key for a path "deterministically from the container identifier
and the fixed path `Sessions.<id>.Started`". -/
def calculateKey (path : String) : String := "guestinfo.vice." ++ path

/-- `start`: nil-handle check; power-on task; bounded wait for the
readiness key `Sessions.<id>.Started`; non-"true" detail surfaces
verbatim as `errors.New(detail)`. -/
def containerBase.start (c : containerBase) : Option GoError × List Event :=
  match c.vm with
  | none => (some (GoError.notYetExist c.ExecConfig.id), [])
  | some v =>
    match v.powerOnResult with
    | some e => (some e, [Event.powerOnTask])
    | none =>
      let key := calculateKey ("Sessions." ++ c.ExecConfig.id ++ ".Started")
      match v.waitForKey key with
      | Except.error e =>
        (some (GoError.plain ("unable to wait for process launch status: " ++ e.message)),
          [Event.powerOnTask, Event.waitKey key])
      | Except.ok detail =>
        if detail = "true" then (none, [Event.powerOnTask, Event.waitKey key])
        else (some (GoError.plain detail), [Event.powerOnTask, Event.waitKey key])

/-- The wait window of `shutdown`: `10 * time.Second` default, replaced by
`*waitTime` seconds when the pointer is non-nil and positive. -/
def shutdownWaitSeconds (waitTime : Option Int) : Int :=
  match waitTime with
  | some w => if 0 < w then w else 10
  | none => 10

/-- The ordered signal sequence of `shutdown`:
`stop := []string{cs.StopSignal, SIGKILL}`, with `stop[0]` replaced by
`SIGTERM` when it is the empty string. -/
def stopSignals (cs : SessionConfig) : List String :=
  let stop := [cs.stopSignal, SIGKILL]
  if cs.stopSignal = "" then [SIGTERM, SIGKILL] else stop

/-- `fmt` rendering of a `[]string` with the `%s` verb. -/
def fmtStringSlice (xs : List String) : String :=
  "[" ++ String.intercalate " " xs ++ "]"

/-- The escalation loop body of `shutdown` over the remaining signals:
dispatch failure aborts with the wrapped error; wait success returns nil;
a non-timeout wait error aborts; a timeout advances to the next signal;
exhaustion produces the aggregate error naming the container and the full
signal sequence. -/
def shutdownLoop (id : String) (v : VMBehavior) (wait : Int) (stopAll : List String) :
    List String → Nat → Option GoError × List Event
  | [], _ =>
    (some (GoError.plain ("failed to shutdown " ++ id ++ " via kill signals " ++
      fmtStringSlice stopAll)), [])
  | sig :: rest, idx =>
    let msg := "sending kill -" ++ sig ++ " " ++ id
    match v.startProgramCall idx "kill" sig with
    | (some e, evs) => (some (GoError.plain (msg ++ ": " ++ e.message)), evs)
    | (none, evs) =>
      match v.waitForPowerState idx wait PowerState.poweredOff with
      | ((_, none), evs2) => (none, evs ++ evs2)
      | ((timeout, some e), evs2) =>
        if timeout then
          let next := shutdownLoop id v wait stopAll rest (idx + 1)
          (next.1, evs ++ evs2 ++ next.2)
        else
          (some e, evs ++ evs2)

/-- `shutdown`: nil-handle check, stop-signal lookup from the session
record for the container identifier, then the escalation loop. The outer
`Option` is `none` exactly when the session lookup fails, where the Go
code's read of `cs.StopSignal` is not safe. -/
def containerBase.shutdown (c : containerBase) (waitTime : Option Int) :
    Option (Option GoError × List Event) :=
  match c.vm with
  | none => some (some (GoError.notYetExist c.ExecConfig.id), [])
  | some v =>
    match c.ExecConfig.sessionForID with
    | none => none
    | some cs =>
      let wait := shutdownWaitSeconds waitTime
      let stop := stopSignals cs
      some (shutdownLoop c.ExecConfig.id v wait stop stop 0)

/-- Modelled from the spec: the constant `vmNotSuspendedKey` is declared
elsewhere in the repository (not in the core source); it is "a specific
fault-message key" marking a power-off task invalidated by a concurrent
guest-initiated shutdown. Only its identity matters to the classifier. -/
def vmNotSuspendedKey : String := "msg.suspend.powerOff.notsuspended"

/-- `poweroff`: nil-handle check; power-off task; fault classification
absorbing the two idempotency shapes (already powered off, or task
invalidated by a concurrent guest shutdown) as success; any other fault
is returned. -/
def containerBase.poweroff (c : containerBase) : Option GoError × List Event :=
  match c.vm with
  | none => (some (GoError.notYetExist c.ExecConfig.id), [])
  | some v =>
    match v.powerOffResult with
    | none => (none, [Event.powerOffTask])
    | some err =>
      match err with
      | GoError.taskError fault _ =>
        match fault with
        | Fault.invalidPowerState existing =>
          if existing = PowerState.poweredOff then (none, [Event.powerOffTask])
          else (some err, [Event.powerOffTask])
        | Fault.genericVmConfigFault msgs =>
          match msgs with
          | m :: _ =>
            if m.key = vmNotSuspendedKey then (none, [Event.powerOffTask])
            else (some err, [Event.powerOffTask])
          | [] => (some err, [Event.powerOffTask])
        | Fault.otherFault => (some err, [Event.powerOffTask])
      | _ => (some err, [Event.powerOffTask])

/-- `kill`: nil-handle check; a single KILL dispatch; on dispatch success a
10-second bounded wait for powered-off which, when nil, returns nil; every
other path falls through to `poweroff`. -/
def containerBase.kill (c : containerBase) : Option GoError × List Event :=
  match c.vm with
  | none => (some (GoError.notYetExist c.ExecConfig.id), [])
  | some v =>
    match v.startProgramCall 0 "kill" SIGKILL with
    | (none, evs) =>
      match v.waitForPowerState 0 10 PowerState.poweredOff with
      | ((_, none), evs2) => (none, evs ++ evs2)
      | ((_, some _), evs2) =>
        let p := c.poweroff
        (p.1, evs ++ evs2 ++ p.2)
    | (some _, evs) =>
      let p := c.poweroff
      (p.1, evs ++ p.2)

/-- `stop`: nil-handle check; `shutdown` first, returning nil on its
success; on any shutdown error, unconditional fallback to `poweroff`,
whose result is returned. The outer `Option` propagates the unsafe
session-lookup case of `shutdown`. -/
def containerBase.stop (c : containerBase) (waitTime : Option Int) :
    Option (Option GoError × List Event) :=
  match c.vm with
  | none => some (some (GoError.notYetExist c.ExecConfig.id), [])
  | some _ =>
    match c.shutdown waitTime with
    | none => none
    | some (none, evs) => some (none, evs)
    | some (some _, evs) =>
      let p := c.poweroff
      some (p.1, evs ++ p.2)

/-! Concrete behaviours and snapshots used to instantiate the theorems. -/

/-- A fully cooperative infrastructure: every call succeeds, the guest
responds to every signal, the readiness key reports "true". -/
def okVM : VMBehavior :=
  ⟨Except.ok ⟨⟨[("guestinfo.vice..init.ID", "cid")]⟩, ⟨PowerState.poweredOn⟩⟩,
    none, none, fun _ _ _ => none, fun _ => WaitOutcome.ok, fun _ => Except.ok "true"⟩

/-- An infrastructure where every bounded power-state wait ends by deadline. -/
def timeoutVM : VMBehavior :=
  ⟨Except.ok ⟨⟨[]⟩, ⟨PowerState.poweredOn⟩⟩,
    none, none, fun _ _ _ => none,
    fun _ => WaitOutcome.err (GoError.plain "boom") true, fun _ => Except.ok "true"⟩

/-- An infrastructure whose power-off task fails with the
already-powered-off fault. -/
def offFaultVM : VMBehavior :=
  ⟨Except.ok ⟨⟨[]⟩, ⟨PowerState.poweredOff⟩⟩,
    none,
    some (GoError.taskError (Fault.invalidPowerState PowerState.poweredOff) "already off"),
    fun _ _ _ => none, fun _ => WaitOutcome.ok, fun _ => Except.ok "true"⟩

/-- An infrastructure whose guest reports the readiness value "false". -/
def falseKeyVM : VMBehavior :=
  ⟨Except.ok ⟨⟨[]⟩, ⟨PowerState.poweredOn⟩⟩,
    none, none, fun _ _ _ => none, fun _ => WaitOutcome.ok, fun _ => Except.ok "false"⟩

/-- Executor config with one session for the container id, no stop signal. -/
def demoConfig : ExecutorConfig := ⟨"cid", [("cid", ⟨""⟩)]⟩

/-- Executor config whose session's configured stop signal is KILL. -/
def killConfig : ExecutorConfig := ⟨"cid", [("cid", ⟨"KILL"⟩)]⟩

/-- Executor config with no session record for the container id. -/
def emptyConfig : ExecutorConfig := ⟨"cid", []⟩

def demoBase : containerBase := ⟨demoConfig, none, none, some okVM⟩

def noVMBase : containerBase := ⟨demoConfig, none, none, none⟩

def killBase : containerBase := ⟨killConfig, none, none, some timeoutVM⟩

def noSessionBase : containerBase := ⟨emptyConfig, none, none, some okVM⟩

def offFaultBase : containerBase := ⟨demoConfig, none, none, some offFaultVM⟩

def falseKeyBase : containerBase := ⟨demoConfig, none, none, some falseKeyVM⟩

/-! Helper lemmas on the shutdown escalation loop. -/

theorem stopSignals_eq (cs : SessionConfig) :
    stopSignals cs = [if cs.stopSignal = "" then SIGTERM else cs.stopSignal, SIGKILL] := by
  by_cases h : cs.stopSignal = "" <;> simp [stopSignals, h]

theorem shutdownLoop_nil (id : String) (v : VMBehavior) (wait : Int) (all : List String)
    (idx : Nat) :
    shutdownLoop id v wait all [] idx =
      (some (GoError.plain ("failed to shutdown " ++ id ++ " via kill signals " ++
        fmtStringSlice all)), []) := rfl

theorem shutdownLoop_dispatch_err (id : String) (v : VMBehavior) (wait : Int)
    (all : List String) (sig : String) (rest : List String) (idx : Nat) (e : GoError)
    (hd : v.startProgram idx "kill" sig = some e) :
    shutdownLoop id v wait all (sig :: rest) idx =
      (some (GoError.plain ("sending kill -" ++ sig ++ " " ++ id ++ ": " ++ e.message)),
        [Event.guestProgram "kill" sig]) := by
  simp [shutdownLoop, VMBehavior.startProgramCall, hd]

theorem shutdownLoop_wait_ok (id : String) (v : VMBehavior) (wait : Int)
    (all : List String) (sig : String) (rest : List String) (idx : Nat)
    (hd : v.startProgram idx "kill" sig = none) (hw : v.waitPower idx = WaitOutcome.ok) :
    shutdownLoop id v wait all (sig :: rest) idx =
      (none, [Event.guestProgram "kill" sig, Event.waitPowerState wait PowerState.poweredOff]) := by
  simp [shutdownLoop, VMBehavior.startProgramCall, VMBehavior.waitForPowerState, hd, hw]

theorem shutdownLoop_wait_err (id : String) (v : VMBehavior) (wait : Int)
    (all : List String) (sig : String) (rest : List String) (idx : Nat) (e : GoError)
    (hd : v.startProgram idx "kill" sig = none)
    (hw : v.waitPower idx = WaitOutcome.err e false) :
    shutdownLoop id v wait all (sig :: rest) idx =
      (some e, [Event.guestProgram "kill" sig, Event.waitPowerState wait PowerState.poweredOff]) := by
  simp [shutdownLoop, VMBehavior.startProgramCall, VMBehavior.waitForPowerState, hd, hw]

theorem shutdownLoop_wait_timeout (id : String) (v : VMBehavior) (wait : Int)
    (all : List String) (sig : String) (rest : List String) (idx : Nat) (e : GoError)
    (hd : v.startProgram idx "kill" sig = none)
    (hw : v.waitPower idx = WaitOutcome.err e true) :
    shutdownLoop id v wait all (sig :: rest) idx =
      ((shutdownLoop id v wait all rest (idx + 1)).1,
        Event.guestProgram "kill" sig :: Event.waitPowerState wait PowerState.poweredOff ::
          (shutdownLoop id v wait all rest (idx + 1)).2) := by
  simp [shutdownLoop, VMBehavior.startProgramCall, VMBehavior.waitForPowerState, hd, hw]

theorem shutdownLoop_trace (id : String) (v : VMBehavior) (wait : Int) (all : List String)
    (sigs : List String) : ∀ idx, Event.powerOffTask ∉ (shutdownLoop id v wait all sigs idx).2 := by
  induction sigs with
  | nil => intro idx; simp [shutdownLoop_nil]
  | cons sig rest ih =>
    intro idx
    cases hd : v.startProgram idx "kill" sig with
    | some e => rw [shutdownLoop_dispatch_err id v wait all sig rest idx e hd]; simp
    | none =>
      cases hw : v.waitPower idx with
      | ok => rw [shutdownLoop_wait_ok id v wait all sig rest idx hd hw]; simp
      | err e dl =>
        cases dl with
        | false => rw [shutdownLoop_wait_err id v wait all sig rest idx e hd hw]; simp
        | true =>
          rw [shutdownLoop_wait_timeout id v wait all sig rest idx e hd hw]
          simp only [List.mem_cons, not_or]
          exact ⟨by simp, by simp, ih (idx + 1)⟩

theorem shutdown_eq_loop (c : containerBase) (v : VMBehavior) (cs : SessionConfig)
    (waitTime : Option Int) (h : c.vm = some v) (hs : c.ExecConfig.sessionForID = some cs) :
    c.shutdown waitTime =
      some (shutdownLoop c.ExecConfig.id v (shutdownWaitSeconds waitTime)
        (stopSignals cs) (stopSignals cs) 0) := by
  simp [containerBase.shutdown, h, hs]

theorem shutdown_trace_no_poweroff (c : containerBase) (waitTime : Option Int)
    (r : Option GoError) (evs : List Event) (h : c.shutdown waitTime = some (r, evs)) :
    Event.powerOffTask ∉ evs := by
  cases hv : c.vm with
  | none =>
    simp [containerBase.shutdown, hv] at h
    obtain ⟨h1, h2⟩ := h
    subst h2
    simp
  | some v =>
    cases hs : c.ExecConfig.sessionForID with
    | none => simp [containerBase.shutdown, hv, hs] at h
    | some cs =>
      rw [shutdown_eq_loop c v cs waitTime hv hs] at h
      have h2 := congrArg (fun p => p.2) (Option.some_injective _ h)
      simp only at h2
      rw [h2.symm]
      exact shutdownLoop_trace c.ExecConfig.id v (shutdownWaitSeconds waitTime)
        (stopSignals cs) (stopSignals cs) 0

theorem poweroff_trace (c : containerBase) (v : VMBehavior) (h : c.vm = some v) :
    (c.poweroff).2 = [Event.powerOffTask] := by
  simp only [containerBase.poweroff, h]
  cases hp : v.powerOffResult with
  | none => rfl
  | some err =>
    cases err with
    | notYetExist id => rfl
    | plain m => rfl
    | taskError fault m =>
      cases fault with
      | invalidPowerState st => cases st <;> simp
      | genericVmConfigFault msgs =>
        cases msgs with
        | nil => rfl
        | cons m0 r0 => by_cases hk : m0.key = vmNotSuspendedKey <;> simp [hk]
      | otherFault => rfl

/-- C8: `waitForPowerState` returns `(false, none)` exactly when the
underlying wait reaches the target power state within the bound; when the
underlying wait fails it returns `(true, err)` precisely when the
deadline caused termination and `(false, err)` otherwise, so the boolean
lets callers distinguish a timeout from a non-timeout error. -/
theorem waitForPowerState_timeout_flag (v : VMBehavior) (idx : Nat) (max : Int)
    (state : PowerState) :
    ((v.waitForPowerState idx max state).1 = (false, none) ↔
      v.waitPower idx = WaitOutcome.ok) ∧
    (∀ e dl, v.waitPower idx = WaitOutcome.err e dl →
      (v.waitForPowerState idx max state).1 = (dl, some e)) := by
  refine ⟨⟨?_, ?_⟩, ?_⟩
  · intro h
    cases hw : v.waitPower idx with
    | ok => rfl
    | err e dl => simp [VMBehavior.waitForPowerState, hw] at h
  · intro h
    simp [VMBehavior.waitForPowerState, h]
  · intro e dl h
    simp [VMBehavior.waitForPowerState, h]

theorem waitForPowerState_timeout_flag_witness :
    (timeoutVM.waitForPowerState 0 10 PowerState.poweredOff).1 =
      (true, some (GoError.plain "boom")) :=
  (waitForPowerState_timeout_flag timeoutVM 0 10 PowerState.poweredOff).2
    (GoError.plain "boom") true rfl

/-- C5: on a snapshot with no instance handle, `updates`/`refresh`,
`start`, `stop`, `kill` and `shutdown` all return `NotYetExist` carrying
the container identifier, with an empty trace of infrastructure calls. -/
theorem nil_handle_notYetExist (c : containerBase)
    (decode : List (String × String) → ExecutorConfig) (waitTime : Option Int)
    (h : c.vm = none) :
    c.updates decode = (Except.error (GoError.notYetExist c.ExecConfig.id), []) ∧
    c.refresh decode = ((c, some (GoError.notYetExist c.ExecConfig.id)), []) ∧
    c.start = (some (GoError.notYetExist c.ExecConfig.id), []) ∧
    c.stop waitTime = some (some (GoError.notYetExist c.ExecConfig.id), []) ∧
    c.kill = (some (GoError.notYetExist c.ExecConfig.id), []) ∧
    c.shutdown waitTime = some (some (GoError.notYetExist c.ExecConfig.id), []) := by
  refine ⟨?_, ?_, ?_, ?_, ?_, ?_⟩ <;>
    simp [containerBase.updates, containerBase.refresh, containerBase.start,
      containerBase.stop, containerBase.kill, containerBase.shutdown, h]

theorem nil_handle_notYetExist_witness :
    noVMBase.start = (some (GoError.notYetExist "cid"), []) ∧
    noVMBase.kill = (some (GoError.notYetExist "cid"), []) ∧
    noVMBase.stop none = some (some (GoError.notYetExist "cid"), []) :=
  ⟨(nil_handle_notYetExist noVMBase (fun _ => emptyConfig) none rfl).2.2.1,
   (nil_handle_notYetExist noVMBase (fun _ => emptyConfig) none rfl).2.2.2.2.1,
   (nil_handle_notYetExist noVMBase (fun _ => emptyConfig) none rfl).2.2.2.1⟩

/-- C4: `poweroff` absorbs exactly the two idempotency fault shapes --
invalid-power-state whose existing state is powered-off, and generic
VM-config fault whose first fault-message key is the guest-shutdown
invalidation key -- returning nil for them and for task success; every
other fault shape and every non-task error is returned unchanged. -/
theorem poweroff_idempotent_faults (c : containerBase) (v : VMBehavior)
    (h : c.vm = some v) :
    ((c.poweroff).1 = none ↔
      v.powerOffResult = none ∨
      (∃ m, v.powerOffResult =
        some (GoError.taskError (Fault.invalidPowerState PowerState.poweredOff) m)) ∨
      (∃ rest m, v.powerOffResult =
        some (GoError.taskError
          (Fault.genericVmConfigFault (LocalizableMessage.mk vmNotSuspendedKey :: rest)) m))) ∧
    (∀ e, v.powerOffResult = some e →
      (c.poweroff).1 = none ∨ (c.poweroff).1 = some e) := by
  constructor
  · cases hp : v.powerOffResult with
    | none => simp [containerBase.poweroff, h, hp]
    | some err =>
      cases err with
      | notYetExist id => simp [containerBase.poweroff, h, hp]
      | plain m => simp [containerBase.poweroff, h, hp]
      | taskError fault m =>
        cases fault with
        | invalidPowerState st =>
          cases st <;> simp [containerBase.poweroff, h, hp]
        | genericVmConfigFault msgs =>
          cases msgs with
          | nil => simp [containerBase.poweroff, h, hp]
          | cons m0 rest0 =>
            cases m0 with
            | mk k =>
              by_cases hk : k = vmNotSuspendedKey <;>
                simp [containerBase.poweroff, h, hp, hk]
        | otherFault => simp [containerBase.poweroff, h, hp]
  · intro e he
    simp only [containerBase.poweroff, h, he]
    cases e with
    | notYetExist id => simp
    | plain m => simp
    | taskError fault m =>
      cases fault with
      | invalidPowerState st => cases st <;> simp
      | genericVmConfigFault msgs =>
        cases msgs with
        | nil => simp
        | cons m0 rest0 => by_cases hk : m0.key = vmNotSuspendedKey <;> simp [hk]
      | otherFault => simp

theorem poweroff_idempotent_faults_witness : (offFaultBase.poweroff).1 = none :=
  (poweroff_idempotent_faults offFaultBase offFaultVM rfl).1.mpr
    (Or.inr (Or.inl ⟨"already off", rfl⟩))

/-- C7: after a successful power-on task and a successful wait for the
readiness key, a reported value other than "true" makes `start` fail with
an error whose text is exactly the reported detail string; the value
"true" makes `start` succeed. -/
theorem start_surfaces_guest_detail (c : containerBase) (v : VMBehavior) (detail : String)
    (h : c.vm = some v) (hp : v.powerOnResult = none)
    (hk : v.waitForKey (calculateKey ("Sessions." ++ c.ExecConfig.id ++ ".Started")) =
      Except.ok detail) :
    (detail ≠ "true" →
      (c.start).1 = some (GoError.plain detail) ∧
      GoError.message (GoError.plain detail) = detail) ∧
    (detail = "true" → (c.start).1 = none) := by
  constructor
  · intro hd
    refine ⟨?_, rfl⟩
    simp [containerBase.start, h, hp, hk, hd]
  · intro hd
    simp [containerBase.start, h, hp, hk, hd]

theorem start_surfaces_guest_detail_witness :
    (falseKeyBase.start).1 = some (GoError.plain "false") :=
  ((start_surfaces_guest_detail falseKeyBase falseKeyVM "false" rfl rfl rfl).1
    (by decide)).1

/-- C9: on a live instance handle, `shutdown` proceeds exactly when the
decoded configuration maps the container identifier to a session record;
when that record is absent, the stop-signal read is not safe and the
Option-returning embedding yields `none`. -/
theorem shutdown_requires_session (c : containerBase) (v : VMBehavior)
    (waitTime : Option Int) (h : c.vm = some v) :
    c.shutdown waitTime = none ↔ c.ExecConfig.sessionForID = none := by
  cases hs : c.ExecConfig.sessionForID <;> simp [containerBase.shutdown, h, hs]

theorem shutdown_requires_session_witness : noSessionBase.shutdown none = none :=
  (shutdown_requires_session noSessionBase okVM none rfl).mpr rfl

/-- C10: TERM is substituted only for an empty configured stop signal and
the sequence is never deduplicated: a session whose configured stop
signal is KILL yields the sequence [KILL, KILL]; when both dispatches
succeed and both waits time out, the KILL guest program is dispatched
twice before the aggregate error naming [KILL KILL] is returned. -/
theorem shutdown_no_dedup (c : containerBase) (v : VMBehavior) (cs : SessionConfig)
    (waitTime : Option Int) (e0 e1 : GoError)
    (h : c.vm = some v) (hs : c.ExecConfig.sessionForID = some cs)
    (hsig : cs.stopSignal = SIGKILL)
    (hd0 : v.startProgram 0 "kill" SIGKILL = none)
    (hd1 : v.startProgram 1 "kill" SIGKILL = none)
    (hw0 : v.waitPower 0 = WaitOutcome.err e0 true)
    (hw1 : v.waitPower 1 = WaitOutcome.err e1 true) :
    (∀ cs' : SessionConfig, cs'.stopSignal ≠ "" →
      stopSignals cs' = [cs'.stopSignal, SIGKILL]) ∧
    (∀ cs' : SessionConfig, cs'.stopSignal = "" → stopSignals cs' = [SIGTERM, SIGKILL]) ∧
    stopSignals cs = [SIGKILL, SIGKILL] ∧
    c.shutdown waitTime =
      some (some (GoError.plain ("failed to shutdown " ++ c.ExecConfig.id ++
          " via kill signals " ++ fmtStringSlice [SIGKILL, SIGKILL])),
        [Event.guestProgram "kill" SIGKILL,
         Event.waitPowerState (shutdownWaitSeconds waitTime) PowerState.poweredOff,
         Event.guestProgram "kill" SIGKILL,
         Event.waitPowerState (shutdownWaitSeconds waitTime) PowerState.poweredOff]) := by
  have hss : stopSignals cs = [SIGKILL, SIGKILL] := by
    rw [stopSignals_eq cs, hsig]
    simp [SIGKILL]
  refine ⟨?_, ?_, hss, ?_⟩
  · intro cs' hne
    simp [stopSignals, hne]
  · intro cs' heq
    simp [stopSignals, heq]
  · rw [shutdown_eq_loop c v cs waitTime h hs, hss]
    rw [shutdownLoop_wait_timeout c.ExecConfig.id v (shutdownWaitSeconds waitTime)
      [SIGKILL, SIGKILL] SIGKILL [SIGKILL] 0 e0 hd0 hw0]
    rw [shutdownLoop_wait_timeout c.ExecConfig.id v (shutdownWaitSeconds waitTime)
      [SIGKILL, SIGKILL] SIGKILL [] 1 e1 hd1 hw1]
    rw [shutdownLoop_nil]

theorem shutdown_no_dedup_witness :
    killBase.shutdown none =
      some (some (GoError.plain "failed to shutdown cid via kill signals [KILL KILL]"),
        [Event.guestProgram "kill" "KILL", Event.waitPowerState 10 PowerState.poweredOff,
         Event.guestProgram "kill" "KILL",
         Event.waitPowerState 10 PowerState.poweredOff]) :=
  (shutdown_no_dedup killBase timeoutVM ⟨"KILL"⟩ none (GoError.plain "boom")
    (GoError.plain "boom") rfl rfl rfl rfl rfl rfl rfl).2.2.2

/-- C6: `refresh` is atomic: on any error the held snapshot is returned
completely unchanged; on success the new snapshot keeps the same instance
handle and takes its ConfigInfo, RuntimeInfo and decoded ExecutorConfig
all from the one property fetch. -/
theorem refresh_atomic (decode : List (String × String) → ExecutorConfig)
    (c : containerBase) :
    (∀ e, (c.refresh decode).1.2 = some e → (c.refresh decode).1.1 = c) ∧
    ((c.refresh decode).1.2 = none →
      ∃ v o, c.vm = some v ∧ v.propertiesResult = Except.ok o ∧
        (c.refresh decode).1.1 =
          ⟨decode o.config.extraConfig, some o.config, some o.runtime, c.vm⟩) := by
  cases hv : c.vm with
  | none =>
    constructor
    · intro e he
      simp [containerBase.refresh, containerBase.updates, hv]
    · intro hn
      simp [containerBase.refresh, containerBase.updates, hv] at hn
  | some v =>
    cases hp : v.propertiesResult with
    | error e0 =>
      constructor
      · intro e he
        simp [containerBase.refresh, containerBase.updates, hv, hp]
      · intro hn
        simp [containerBase.refresh, containerBase.updates, hv, hp] at hn
    | ok o =>
      constructor
      · intro e he
        simp [containerBase.refresh, containerBase.updates, hv, hp] at he
      · intro hn
        refine ⟨v, o, rfl, hp, ?_⟩
        simp [containerBase.refresh, containerBase.updates, hv, hp]

def decode0 : List (String × String) → ExecutorConfig := fun _ => demoConfig

theorem refresh_atomic_witness :
    ∃ v o, demoBase.vm = some v ∧ v.propertiesResult = Except.ok o ∧
      (demoBase.refresh decode0).1.1 =
        ⟨decode0 o.config.extraConfig, some o.config, some o.runtime, demoBase.vm⟩ :=
  (refresh_atomic decode0 demoBase).2 rfl

/-- C1: `shutdown` tries the signals strictly in the order
[configured-or-TERM, KILL] with exactly three outcomes per signal:
a dispatch failure aborts immediately with that error and no further
dispatch; an observed power-off returns success immediately with no
further call; a wait timeout advances to the next signal; a non-timeout
wait failure is returned immediately without escalation; exhausting both
signals returns the aggregate error naming the container and the signal
sequence. -/
theorem shutdown_signal_escalation (c : containerBase) (v : VMBehavior) (cs : SessionConfig)
    (waitTime : Option Int) (s0 : String) (w : Int)
    (h : c.vm = some v) (hs : c.ExecConfig.sessionForID = some cs)
    (hs0 : s0 = if cs.stopSignal = "" then SIGTERM else cs.stopSignal)
    (hw : w = shutdownWaitSeconds waitTime) :
    (∀ e, v.startProgram 0 "kill" s0 = some e →
      c.shutdown waitTime = some (some (GoError.plain
          ("sending kill -" ++ s0 ++ " " ++ c.ExecConfig.id ++ ": " ++ e.message)),
        [Event.guestProgram "kill" s0])) ∧
    (v.startProgram 0 "kill" s0 = none → v.waitPower 0 = WaitOutcome.ok →
      c.shutdown waitTime = some (none,
        [Event.guestProgram "kill" s0, Event.waitPowerState w PowerState.poweredOff])) ∧
    (∀ e, v.startProgram 0 "kill" s0 = none → v.waitPower 0 = WaitOutcome.err e false →
      c.shutdown waitTime = some (some e,
        [Event.guestProgram "kill" s0, Event.waitPowerState w PowerState.poweredOff])) ∧
    (∀ e, v.startProgram 0 "kill" s0 = none → v.waitPower 0 = WaitOutcome.err e true →
      (∀ e2, v.startProgram 1 "kill" SIGKILL = some e2 →
        c.shutdown waitTime = some (some (GoError.plain
            ("sending kill -" ++ SIGKILL ++ " " ++ c.ExecConfig.id ++ ": " ++ e2.message)),
          [Event.guestProgram "kill" s0, Event.waitPowerState w PowerState.poweredOff,
           Event.guestProgram "kill" SIGKILL])) ∧
      (v.startProgram 1 "kill" SIGKILL = none → v.waitPower 1 = WaitOutcome.ok →
        c.shutdown waitTime = some (none,
          [Event.guestProgram "kill" s0, Event.waitPowerState w PowerState.poweredOff,
           Event.guestProgram "kill" SIGKILL,
           Event.waitPowerState w PowerState.poweredOff])) ∧
      (∀ e2, v.startProgram 1 "kill" SIGKILL = none →
        v.waitPower 1 = WaitOutcome.err e2 false →
        c.shutdown waitTime = some (some e2,
          [Event.guestProgram "kill" s0, Event.waitPowerState w PowerState.poweredOff,
           Event.guestProgram "kill" SIGKILL,
           Event.waitPowerState w PowerState.poweredOff])) ∧
      (∀ e2, v.startProgram 1 "kill" SIGKILL = none →
        v.waitPower 1 = WaitOutcome.err e2 true →
        c.shutdown waitTime = some (some (GoError.plain
            ("failed to shutdown " ++ c.ExecConfig.id ++ " via kill signals " ++
              fmtStringSlice [s0, SIGKILL])),
          [Event.guestProgram "kill" s0, Event.waitPowerState w PowerState.poweredOff,
           Event.guestProgram "kill" SIGKILL,
           Event.waitPowerState w PowerState.poweredOff]))) := by
  have hloop := shutdown_eq_loop c v cs waitTime h hs
  have hss : stopSignals cs = [s0, SIGKILL] := by rw [stopSignals_eq cs, hs0]
  rw [hss] at hloop
  subst hw
  refine ⟨?_, ?_, ?_, ?_⟩
  · intro e hd
    rw [hloop, shutdownLoop_dispatch_err c.ExecConfig.id v (shutdownWaitSeconds waitTime)
      [s0, SIGKILL] s0 [SIGKILL] 0 e hd]
  · intro hd hw0
    rw [hloop, shutdownLoop_wait_ok c.ExecConfig.id v (shutdownWaitSeconds waitTime)
      [s0, SIGKILL] s0 [SIGKILL] 0 hd hw0]
  · intro e hd hw0
    rw [hloop, shutdownLoop_wait_err c.ExecConfig.id v (shutdownWaitSeconds waitTime)
      [s0, SIGKILL] s0 [SIGKILL] 0 e hd hw0]
  · intro e hd hw0
    rw [shutdownLoop_wait_timeout c.ExecConfig.id v (shutdownWaitSeconds waitTime)
      [s0, SIGKILL] s0 [SIGKILL] 0 e hd hw0] at hloop
    refine ⟨?_, ?_, ?_, ?_⟩
    · intro e2 hd1
      rw [hloop, shutdownLoop_dispatch_err c.ExecConfig.id v (shutdownWaitSeconds waitTime)
        [s0, SIGKILL] SIGKILL [] 1 e2 hd1]
    · intro hd1 hw1
      rw [hloop, shutdownLoop_wait_ok c.ExecConfig.id v (shutdownWaitSeconds waitTime)
        [s0, SIGKILL] SIGKILL [] 1 hd1 hw1]
    · intro e2 hd1 hw1
      rw [hloop, shutdownLoop_wait_err c.ExecConfig.id v (shutdownWaitSeconds waitTime)
        [s0, SIGKILL] SIGKILL [] 1 e2 hd1 hw1]
    · intro e2 hd1 hw1
      rw [hloop, shutdownLoop_wait_timeout c.ExecConfig.id v (shutdownWaitSeconds waitTime)
        [s0, SIGKILL] SIGKILL [] 1 e2 hd1 hw1, shutdownLoop_nil]

theorem shutdown_signal_escalation_witness :
    demoBase.shutdown none =
      some (none, [Event.guestProgram "kill" "TERM",
        Event.waitPowerState 10 PowerState.poweredOff]) :=
  (shutdown_signal_escalation demoBase okVM ⟨""⟩ none "TERM" 10 rfl rfl rfl rfl).2.1
    rfl rfl

/-- C2: `stop` attempts `shutdown` first; when shutdown succeeds, `stop`
returns success and never issues a hard power-off; when shutdown fails
for any reason, `stop` unconditionally falls back to `poweroff` (exactly
one power-off call) and returns the power-off outcome as its result. -/
theorem stop_shutdown_then_poweroff (c : containerBase) (v : VMBehavior)
    (waitTime : Option Int) (r : Option GoError) (evs : List Event)
    (h : c.vm = some v) (hsd : c.shutdown waitTime = some (r, evs)) :
    (r = none → c.stop waitTime = some (none, evs) ∧ Event.powerOffTask ∉ evs) ∧
    (∀ e, r = some e →
      c.stop waitTime = some ((c.poweroff).1, evs ++ (c.poweroff).2) ∧
      (c.poweroff).2 = [Event.powerOffTask]) := by
  constructor
  · intro hr
    subst hr
    refine ⟨?_, shutdown_trace_no_poweroff c waitTime none evs hsd⟩
    simp [containerBase.stop, h, hsd]
  · intro e hr
    subst hr
    refine ⟨?_, poweroff_trace c v h⟩
    simp [containerBase.stop, h, hsd]

theorem stop_shutdown_then_poweroff_witness :
    demoBase.stop none = some (none, [Event.guestProgram "kill" "TERM",
      Event.waitPowerState 10 PowerState.poweredOff]) ∧
    Event.powerOffTask ∉ [Event.guestProgram "kill" "TERM",
      Event.waitPowerState 10 PowerState.poweredOff] :=
  (stop_shutdown_then_poweroff demoBase okVM none none
    [Event.guestProgram "kill" "TERM", Event.waitPowerState 10 PowerState.poweredOff]
    rfl rfl).1 rfl

/-- C3: `kill` dispatches only the KILL signal; the signal path returns
success only when the bounded wait confirms powered-off; on dispatch
failure or any wait failure it falls through to `poweroff` and returns
its result; `kill` never returns success unless the wait confirmed
power-off or `poweroff` itself succeeded. -/
theorem kill_forces_poweroff (c : containerBase) (v : VMBehavior) (h : c.vm = some v) :
    (∀ e, v.startProgram 0 "kill" SIGKILL = some e →
      c.kill = ((c.poweroff).1,
        Event.guestProgram "kill" SIGKILL :: (c.poweroff).2)) ∧
    (v.startProgram 0 "kill" SIGKILL = none → v.waitPower 0 = WaitOutcome.ok →
      c.kill = (none, [Event.guestProgram "kill" SIGKILL,
        Event.waitPowerState 10 PowerState.poweredOff])) ∧
    (∀ e dl, v.startProgram 0 "kill" SIGKILL = none →
      v.waitPower 0 = WaitOutcome.err e dl →
      c.kill = ((c.poweroff).1,
        Event.guestProgram "kill" SIGKILL ::
          Event.waitPowerState 10 PowerState.poweredOff :: (c.poweroff).2)) ∧
    (∀ name args, Event.guestProgram name args ∈ (c.kill).2 →
      name = "kill" ∧ args = SIGKILL) ∧
    ((c.kill).1 = none →
      (v.startProgram 0 "kill" SIGKILL = none ∧ v.waitPower 0 = WaitOutcome.ok) ∨
      (c.poweroff).1 = none) := by
  have ht := poweroff_trace c v h
  refine ⟨?_, ?_, ?_, ?_, ?_⟩
  · intro e hd
    simp [containerBase.kill, h, VMBehavior.startProgramCall, hd]
  · intro hd hw
    simp [containerBase.kill, h, VMBehavior.startProgramCall,
      VMBehavior.waitForPowerState, hd, hw]
  · intro e dl hd hw
    simp [containerBase.kill, h, VMBehavior.startProgramCall,
      VMBehavior.waitForPowerState, hd, hw]
  · intro name args hmem
    cases hd : v.startProgram 0 "kill" SIGKILL with
    | some e =>
      simp [containerBase.kill, h, VMBehavior.startProgramCall, hd, ht] at hmem
      exact ⟨hmem.1, hmem.2⟩
    | none =>
      cases hw : v.waitPower 0 with
      | ok =>
        simp [containerBase.kill, h, VMBehavior.startProgramCall,
          VMBehavior.waitForPowerState, hd, hw] at hmem
        exact ⟨hmem.1, hmem.2⟩
      | err e dl =>
        simp [containerBase.kill, h, VMBehavior.startProgramCall,
          VMBehavior.waitForPowerState, hd, hw, ht] at hmem
        exact ⟨hmem.1, hmem.2⟩
  · intro hnil
    cases hd : v.startProgram 0 "kill" SIGKILL with
    | some e =>
      right
      simp [containerBase.kill, h, VMBehavior.startProgramCall, hd] at hnil
      exact hnil
    | none =>
      cases hw : v.waitPower 0 with
      | ok => exact Or.inl ⟨rfl, rfl⟩
      | err e dl =>
        right
        simp [containerBase.kill, h, VMBehavior.startProgramCall,
          VMBehavior.waitForPowerState, hd, hw] at hnil
        exact hnil

theorem kill_forces_poweroff_witness :
    demoBase.kill = (none, [Event.guestProgram "kill" "KILL",
      Event.waitPowerState 10 PowerState.poweredOff]) :=
  (kill_forces_poweroff demoBase okVM rfl).2.1 rfl rfl

end Exec
